import Mathlib

/-!
# Verification of the LifeForgeConnect thalassemia transfusion core

Shallow embedding, in Lean 4, of the transfusion-timing predictor and
donor-matching engine of the repository (files
`backend/ml/transfusion_predictor.py`, `backend/ml/model_manager.py`,
`backend/utils/matching.py`), together with proofs and refutations of the
frozen specification claims.

Modelling conventions:
* Python floats are modelled as `ℚ` (the claims under verification concern
  order/threshold/formula facts that are exact in either arithmetic);
* `datetime` values are modelled as integer day numbers; a donor's
  `last_donation_date` column is carried as `Option Int` holding
  `(datetime.now() - last_donation_date).days` (`none` = null/NaT);
* pandas column expressions are translated element-wise, with the pandas
  coercion rules spelled out in comments where they matter.
-/

namespace LifeForge

/-! ## Blood types and the two compatibility encodings

`BT` enumerates the 8 blood groups; `BT.str` is the string the repository
uses for each.
-/

/-- The 8 blood groups. -/
inductive BT where
  | Om | Op | Am | Ap | Bm | Bp | ABm | ABp
  deriving DecidableEq, Repr, Fintype

/-- The string representation used throughout the repository. -/
def BT.str : BT → String
  | .Om => "O-"
  | .Op => "O+"
  | .Am => "A-"
  | .Ap => "A+"
  | .Bm => "B-"
  | .Bp => "B+"
  | .ABm => "AB-"
  | .ABp => "AB+"

/-- `BLOOD_TYPE_COMPATIBILITY.get(bt, [])` from
`backend/ml/transfusion_predictor.py` lines 269-278: maps a *recipient*
blood type to the list of donor blood types that may donate to it; an
unknown key yields the empty list (the `.get(patient_blood_type, [])`
default at line 306). -/
def BLOOD_TYPE_COMPATIBILITY_get (bt : String) : List String :=
  if bt = "O-" then ["O-"]
  else if bt = "O+" then ["O-", "O+"]
  else if bt = "A-" then ["O-", "A-"]
  else if bt = "A+" then ["O-", "O+", "A-", "A+"]
  else if bt = "B-" then ["O-", "B-"]
  else if bt = "B+" then ["O-", "O+", "B-", "B+"]
  else if bt = "AB-" then ["O-", "A-", "B-", "AB-"]
  else if bt = "AB+" then ["O-", "O+", "A-", "A+", "B-", "B+", "AB-", "AB+"]
  else []

/-- The compatibility predicate induced by the matching engine's table:
donor `d` appears in `BLOOD_TYPE_COMPATIBILITY[r]` (this is exactly the
membership test `donors_df["blood_type"].isin(compatible_types)` performs
at line 309 of `transfusion_predictor.py`). -/
def progCompatible (d r : String) : Bool :=
  (BLOOD_TYPE_COMPATIBILITY_get r).contains d

/-- `_COMPATIBLE.get(recipient_group, [])` from `backend/utils/matching.py`
lines 18-27: recipient blood group mapped to the donor groups that can
donate to it. -/
def COMPATIBLE_get (recipient : String) : List String :=
  if recipient = "A+" then ["A+", "A-", "O+", "O-"]
  else if recipient = "A-" then ["A-", "O-"]
  else if recipient = "B+" then ["B+", "B-", "O+", "O-"]
  else if recipient = "B-" then ["B-", "O-"]
  else if recipient = "AB+" then ["A+", "A-", "B+", "B-", "AB+", "AB-", "O+", "O-"]
  else if recipient = "AB-" then ["A-", "B-", "AB-", "O-"]
  else if recipient = "O+" then ["O+", "O-"]
  else if recipient = "O-" then ["O-"]
  else []

/-- `blood_compatible(donor_group, recipient_group)` from
`backend/utils/matching.py` lines 29-31. -/
def blood_compatible (donor_group recipient_group : String) : Bool :=
  (COMPATIBLE_get recipient_group).contains donor_group

/-- The canonical transfusion-medicine compatibility matrix, written from
the specification's words (spec section 4.3: O- donates to everyone; A- to
A-, A+, AB-, AB+; B- to B-, B+, AB-, AB+; A+ to A+, AB+; B+ to B+, AB+;
AB- to AB-, AB+; O+ to O+, A+, B+, AB+; AB+ receives from everyone, hence
AB+ donates to AB+ alone). Keyed by *donor*, listing eligible recipients. -/
def canonicalRecipients : BT → List BT
  | .Om => [.Om, .Op, .Am, .Ap, .Bm, .Bp, .ABm, .ABp]
  | .Op => [.Op, .Ap, .Bp, .ABp]
  | .Am => [.Am, .Ap, .ABm, .ABp]
  | .Ap => [.Ap, .ABp]
  | .Bm => [.Bm, .Bp, .ABm, .ABp]
  | .Bp => [.Bp, .ABp]
  | .ABm => [.ABm, .ABp]
  | .ABp => [.ABp]

/-- Canonical donor-to-recipient compatibility predicate (from the spec's
matrix, for comparison against the code's encodings). -/
def canonicalCompatible (d r : BT) : Bool :=
  (canonicalRecipients d).contains r

/-! ## Donor matching engine

`DonorMatchingEngine` in `backend/ml/transfusion_predictor.py` lines
281-338.  A row of `transfusion_history_df`, as consumed by the engine, is
modelled by its `patient_id` and `donor_id` columns (the engine reads no
other column).  A row of `donors_df` is modelled by the columns the
`match` filter and scorer read.
-/

/-- One row of `transfusion_history_df` as read by the matching engine. -/
structure TxRow where
  patientId : String
  donorId : String
  deriving DecidableEq, Repr

/-- One row of `donors_df` as read by `DonorMatchingEngine.match`.
`lastDonationDaysAgo` holds `(datetime.now() - last_donation_date).days`,
`none` when the date is null (NaT). -/
structure Donor where
  donorId : String
  bloodType : String
  isAvailable : Bool
  lastDonationDaysAgo : Option Int
  totalDonations : Nat
  deriving DecidableEq, Repr

/-- `DonorMatchingEngine.__init__` (lines 287-293) groups the history by
`patient_id` and collects each group's `donor_id` values into a set;
`get_excluded_donors` (lines 295-296) returns that set, defaulting to the
empty set.  Modelled as the list of donor ids of the patient's history
rows (only membership in it is ever consulted). -/
def get_excluded_donors (hist : List TxRow) (patientId : String) : List String :=
  (hist.filter (fun row => row.patientId = patientId)).map (fun row => row.donorId)

/-- The last conjunct of the eligibility mask, lines 312-315 of
`transfusion_predictor.py`:

`donors_df["last_donation_date"].isna() | (datetime.now() - donors_df["last_donation_date"]).dt.days >= 56`

In Python, `|` binds tighter than `>=`, so this parses as
`(isna | days) >= 56`, not as the intended `isna | (days >= 56)`.
pandas evaluates `bool_series | numeric_series` by coercing to booleans
(`logical_op` casts the result with `fill_bool` because the left operand
is boolean, and nulls in the numeric operand become `False`), so
`isna | days` is the boolean series "date is null, or days-since is
nonzero".  Comparing a boolean series with `>= 56` then compares `1` or
`0` against `56`, which is false for every row.  The translation below
spells out that evaluation; the conjunct is identically `false`. -/
def cooldown56Mask (d : Donor) : Bool :=
  let isnaOrDays : Bool := d.lastDonationDaysAgo.isNone || (d.lastDonationDaysAgo.getD 0 ≠ 0)
  decide ((if isnaOrDays then (1 : Int) else 0) ≥ 56)

/-- The full eligibility mask of lines 308-316: blood type in the
recipient's compatible list, donor id not excluded, available, and the
(mis-parenthesised) 56-day cooldown conjunct. -/
def eligibleMask (excluded : List String) (compatibleTypes : List String) (d : Donor) : Bool :=
  compatibleTypes.contains d.bloodType
    && !(excluded.contains d.donorId)
    && d.isAvailable
    && cooldown56Mask d

/-- `(now - eligible["last_donation_date"]).dt.days.fillna(999)`,
lines 321-324: days since last donation, with null dates mapped to 999. -/
def days_since_last_donation (d : Donor) : Int :=
  d.lastDonationDaysAgo.getD 999

/-- `eligible["total_donations"].max()` over a pool (line 326). -/
def max_donations (pool : List Donor) : Nat :=
  (pool.map (fun d => d.totalDonations)).foldr max 0

/-- A returned row of `match`: the donor's columns together with the
computed score (line 337's projection keeps `donor_id`, `blood_type`,
`score`, `is_available`, `last_donation_date`, `total_donations`; we keep
the whole donor record plus the score). -/
structure ScoredDonor where
  donor : Donor
  score : ℚ
  deriving DecidableEq, Repr

/-- The per-donor score of lines 327-334: when the pool's maximum
total-donation count `m` is positive,
`0.4 * (total_donations / m) + 0.3 * (clip(days_since_last_donation, 56, 365) / 365) + 0.3 * 1.0`;
otherwise a flat `0.5`. -/
def donorScore (m : Nat) (d : Donor) : ℚ :=
  if m > 0 then
    (2 / 5) * ((d.totalDonations : ℚ) / (m : ℚ))
      + (3 / 10) * (((min (max (days_since_last_donation d) 56) 365 : Int) : ℚ) / 365)
      + (3 / 10) * 1
  else
    1 / 2

/-- Descending-score order used by `sort_values("score", ascending=False)`
(line 336).  pandas's sort kind leaves the relative order of equal scores
unspecified; any sort into this order is a faithful model. -/
def scoreDesc (a b : ScoredDonor) : Prop := b.score ≤ a.score

instance : DecidableRel scoreDesc := fun a b => inferInstanceAs (Decidable (b.score ≤ a.score))

instance : IsTotal ScoredDonor scoreDesc := ⟨fun a b => le_total b.score a.score⟩

instance : IsTrans ScoredDonor scoreDesc := ⟨fun _ _ _ hab hbc => le_trans hbc hab⟩

/-- Lines 321-338 of `transfusion_predictor.py`: attach
`days_since_last_donation` and `score` to each eligible donor, sort by
score descending, and keep the first `top_n` rows. -/
def scoreAndRank (eligible : List Donor) (top_n : Nat) : List ScoredDonor :=
  let m := max_donations eligible
  let scored := eligible.map (fun d => ScoredDonor.mk d (donorScore m d))
  (List.insertionSort scoreDesc scored).take top_n

/-- `DonorMatchingEngine.match` (lines 298-338): compute the exclusion set
and the recipient's compatible donor types, filter `donors_df` by the
eligibility mask, return the empty frame when no donor passes, otherwise
score, rank and truncate.  `hist` is the history snapshot the engine was
constructed from. -/
def matchDonors (hist : List TxRow) (patientId patientBloodType : String)
    (donors : List Donor) (top_n : Nat) : List ScoredDonor :=
  let excluded := get_excluded_donors hist patientId
  let compatibleTypes := BLOOD_TYPE_COMPATIBILITY_get patientBloodType
  let eligible := donors.filter (eligibleMask excluded compatibleTypes)
  if eligible.isEmpty then [] else scoreAndRank eligible top_n

/-! ## Timing-model prediction post-processing

`TransfusionTimingModel.predict`, `transfusion_predictor.py` lines
231-262.  The two regressor outputs `rf_pred` and `gb_pred` and the
bagged-ensemble member standard deviation `std_dev` are opaque real
numbers produced by the fitted model; they enter the embedding as `ℚ`
parameters (with `0 ≤ std_dev`, which numpy's `std` guarantees).  The
deterministic post-processing — blending, rounding, flooring, the
confidence band and the urgency tier — is translated from the source.
-/

/-- Python's built-in `round` on a real value: round half to even. -/
def pyRound (q : ℚ) : Int :=
  let f := ⌊q⌋
  if q - f < 1 / 2 then f
  else if q - f > 1 / 2 then f + 1
  else if f % 2 = 0 then f else f + 1

/-- `predicted_days = max(5, round(0.6 * rf_pred + 0.4 * gb_pred))`
(line 241). -/
def predicted_days (rf_pred gb_pred : ℚ) : Int :=
  max 5 (pyRound ((3 / 5) * rf_pred + (2 / 5) * gb_pred))

/-- `low = max(5, round(predicted_days - std_dev))` (line 245). -/
def confidence_low (pdays : Int) (std_dev : ℚ) : Int :=
  max 5 (pyRound ((pdays : ℚ) - std_dev))

/-- `high = round(predicted_days + std_dev)` (line 246). -/
def confidence_high (pdays : Int) (std_dev : ℚ) : Int :=
  pyRound ((pdays : ℚ) + std_dev)

/-- Urgency tiers. -/
inductive Urgency where
  | URGENT | SOON | STABLE
  deriving DecidableEq, Repr

/-- Lines 248-253: `if predicted_days <= 7: URGENT elif <= 14: SOON else
STABLE`. -/
def urgencyOf (pdays : Int) : Urgency :=
  if pdays ≤ 7 then .URGENT
  else if pdays ≤ 14 then .SOON
  else .STABLE

/-! ## Feature builder

`TransfusionFeatureEngineer.build_features`,
`transfusion_predictor.py` lines 36-125, specialised to one patient: the
outer loop visits each patient id, skips patients missing from
`patients_df`, and concatenates the per-patient rows, so every
row-generation fact is a fact about the per-patient body (lines 51-110).
-/

/-- Static patient attributes read from `patients_df` (line 49). -/
structure PatientInfo where
  age : Int
  weightKg : ℚ
  splenectomy : Bool
  chelationTherapy : Bool
  baselineHb : ℚ
  deriving DecidableEq, Repr

/-- One transfusion event row, the columns the feature loop reads.
`txDate` is the `transfusion_date` as a day number.  `month_of_year`
(line 98) is carried as a stored attribute of the event rather than
derived from a calendar. -/
structure TxEvent where
  txDate : Int
  month : Int
  hbPre : ℚ
  hbPost : ℚ
  units : Int
  reaction : Bool
  deriving DecidableEq, Repr

/-- One hemoglobin reading row. -/
structure HbReading where
  readingDate : Int
  hbValue : ℚ
  deriving DecidableEq, Repr

/-- Default event used to give the indexed accesses a total type; every
index the builder uses is in range. -/
def dummyTx : TxEvent := ⟨0, 0, 0, 0, 0, false⟩

/-- `pt_tx.sort_values("transfusion_date")` (line 53). -/
def sortByDate (evts : List TxEvent) : List TxEvent :=
  List.insertionSort (fun a b => a.txDate ≤ b.txDate) evts

/-- The day gap between consecutive events `i` and `i + 1` of the sorted
history (lines 67-69 compute it for the current pair, line 82 for past
pairs). -/
def gapAt (evts : List TxEvent) (i : Nat) : Int :=
  (evts.getD (i + 1) dummyTx).txDate - (evts.getD i dummyTx).txDate

/-- `_calc_hb_slope` (lines 115-125): readings strictly between the two
dates; fewer than two readings fall back to `-0.07`; otherwise the
degree-1 least-squares slope that `np.polyfit(days, hbs, 1)[0]` computes,
`(n * Σxy - Σx * Σy) / (n * Σx² - (Σx)²)`.  (When all readings share one
day the denominator vanishes; `polyfit` then answers through its SVD
least-squares fallback while `ℚ` division yields `0` — a corner no claim
touches.  The source's sort of the readings, line 58, does not change the
sums.) -/
def calc_hb_slope (hb : List HbReading) (startDate endDate : Int) : ℚ :=
  let window := hb.filter (fun r => startDate < r.readingDate && r.readingDate < endDate)
  if window.length < 2 then -7 / 100
  else
    let xs := window.map (fun r => ((r.readingDate - startDate : Int) : ℚ))
    let ys := window.map (fun r => r.hbValue)
    let n : ℚ := window.length
    let sx := xs.sum
    let sy := ys.sum
    let sxy := ((xs.zip ys).map (fun p => p.1 * p.2)).sum
    let sxx := (xs.map (fun x => x * x)).sum
    (n * sxy - sx * sy) / (n * sxx - sx * sx)

/-- `past_intervals` for row `i` (lines 80-83): the gaps of the up-to-3
preceding consecutive pairs, `range(max(0, i - 3), i)`. -/
def pastIntervals (evts : List TxEvent) (i : Nat) : List Int :=
  ((List.range i).drop (i - 3)).map (gapAt evts)

/-- One feature row (the record built at lines 85-109).
`stdIntervalLast3Sq` carries the *square* of `std_interval_last3` (the
population variance; the source stores `np.std`, its square root — no
claim constrains that field, and the square keeps the embedding in `ℚ`). -/
structure FeatureRow where
  age : Int
  weightKg : ℚ
  splenectomy : Int
  chelationTherapy : Int
  baselineHb : ℚ
  hbPreTransfusion : ℚ
  hbPostTransfusion : ℚ
  hbRise : ℚ
  unitsTransfused : Int
  reactionOccurred : Int
  txNumber : Nat
  monthOfYear : Int
  daysSincePrevTx : Int
  hbDecayRate : ℚ
  predictedHbAt14d : ℚ
  predictedHbAt21d : ℚ
  avgIntervalLast3 : ℚ
  minIntervalLast3 : Int
  stdIntervalLast3Sq : ℚ
  daysToNextTx : Int
  deriving DecidableEq, Repr

/-- The loop body for pair index `i` (lines 63-110): skip the pair when
its gap is `< 5` or `> 120`, otherwise build the feature record. -/
def rowAt (pt : PatientInfo) (evts : List TxEvent) (hb : List HbReading) (i : Nat) :
    Option FeatureRow :=
  if gapAt evts i < 5 ∨ 120 < gapAt evts i then none
  else
    let cur := evts.getD i dummyTx
    let nxt := evts.getD (i + 1) dummyTx
    let hb_slope := calc_hb_slope hb cur.txDate nxt.txDate
    let past := pastIntervals evts i
    some {
      age := pt.age
      weightKg := pt.weightKg
      splenectomy := if pt.splenectomy then 1 else 0
      chelationTherapy := if pt.chelationTherapy then 1 else 0
      baselineHb := pt.baselineHb
      hbPreTransfusion := cur.hbPre
      hbPostTransfusion := cur.hbPost
      hbRise := cur.hbPost - cur.hbPre
      unitsTransfused := cur.units
      reactionOccurred := if cur.reaction then 1 else 0
      txNumber := i + 1
      monthOfYear := cur.month
      daysSincePrevTx := if 0 < i then cur.txDate - (evts.getD (i - 1) dummyTx).txDate else 21
      hbDecayRate := hb_slope
      predictedHbAt14d := cur.hbPost + hb_slope * 14
      predictedHbAt21d := cur.hbPost + hb_slope * 21
      avgIntervalLast3 := if past.isEmpty then 21 else (past.map (fun x => (x : ℚ))).sum / past.length
      minIntervalLast3 := past.min?.getD 14
      stdIntervalLast3Sq :=
        if past.isEmpty then 0
        else
          let μ : ℚ := (past.map (fun x => (x : ℚ))).sum / past.length
          (past.map (fun x => ((x : ℚ) - μ) ^ 2)).sum / past.length
      daysToNextTx := gapAt evts i }

/-- The per-patient body of `build_features` (lines 51-110): sort the
patient's events by date; a patient with fewer than two events yields no
rows (line 60; for such lists the index range below is empty anyway);
otherwise run the loop body over pair indices `0 .. len - 2`. -/
def build_features_one (pt : PatientInfo) (evts : List TxEvent) (hb : List HbReading) :
    List FeatureRow :=
  let pt_tx := sortByDate evts
  if pt_tx.length < 2 then []
  else (List.range (pt_tx.length - 1)).filterMap (rowAt pt pt_tx hb)

/-- The consecutive-pair day gaps of a history, in order. -/
def consecGaps (evts : List TxEvent) : List Int :=
  (List.range (evts.length - 1)).map (gapAt evts)

/-! ## Patient alert batch

`PatientAlertSystem.run_daily_batch`, `transfusion_predictor.py` lines
358-405.  Each loop iteration obtains `prediction["predicted_days"]` for
one patient from the fitted model — an opaque value that enters the
embedding as an oracle input, one `(patient_id, predicted_days)` pair per
successfully processed patient (a patient whose iteration raises is
logged and skipped, so it contributes no pair).  The record assembly
(lines 383-394) stores the day count and the urgency tier computed by
`predict` (`urgencyOf predicted_days`, lines 248-253); the remaining
record columns (blood type, dates, confidence band, donor counts) ride
along unchanged and play no part in the ordering, so the embedding keeps
the columns the final sort reads.
-/

/-- One row of the batch output, the columns read by the sort of lines
400-403. -/
structure AlertRecord where
  patientId : String
  predictedDays : Int
  urgency : Urgency
  deriving DecidableEq, Repr

/-- The `urgency_order` mapping of line 401: URGENT to 0, SOON to 1,
STABLE to 2. -/
def urgency_order : Urgency → Nat
  | .URGENT => 0
  | .SOON => 1
  | .STABLE => 2

/-- The per-patient loop of lines 367-394: one record per processed
patient, urgency as `predict` computed it from the predicted days. -/
def mkAlerts (preds : List (String × Int)) : List AlertRecord :=
  preds.map (fun p => ⟨p.1, p.2, urgencyOf p.2⟩)

/-- The sort key order of line 403: ascending `urgency_rank`, then
ascending `predicted_days`. -/
def alertLE (a b : AlertRecord) : Prop :=
  urgency_order a.urgency < urgency_order b.urgency ∨
    (urgency_order a.urgency = urgency_order b.urgency ∧ a.predictedDays ≤ b.predictedDays)

instance : DecidableRel alertLE := fun _ _ =>
  inferInstanceAs (Decidable (_ ∨ _))

instance : IsTotal AlertRecord alertLE :=
  ⟨fun a b => by
    unfold alertLE
    rcases Nat.lt_trichotomy (urgency_order a.urgency) (urgency_order b.urgency) with h | h | h
    · exact Or.inl (Or.inl h)
    · rcases le_total a.predictedDays b.predictedDays with h' | h'
      · exact Or.inl (Or.inr ⟨h, h'⟩)
      · exact Or.inr (Or.inr ⟨h.symm, h'⟩)
    · exact Or.inr (Or.inl h)⟩

instance : IsTrans AlertRecord alertLE :=
  ⟨fun a b c hab hbc => by
    rcases hab with h | ⟨h, h'⟩ <;> rcases hbc with g | ⟨g, g'⟩
    · exact Or.inl (h.trans g)
    · exact Or.inl (g ▸ h)
    · exact Or.inl (h ▸ g)
    · exact Or.inr ⟨h.trans g, h'.trans g'⟩⟩

/-- `alerts_df.sort_values(["urgency_rank", "predicted_days"])` followed
by dropping the helper column (lines 400-403); pandas leaves the order of
fully tied rows unspecified, so any sort into `alertLE` order is a
faithful model. -/
def run_daily_batch (preds : List (String × Int)) : List AlertRecord :=
  List.insertionSort alertLE (mkAlerts preds)

/-! ## Model lifecycle manager

`ThalModelManager.train_on_synthetic`, `backend/ml/model_manager.py`
lines 78-117, together with the mutation behaviour of
`TransfusionTimingModel.fit` (`transfusion_predictor.py` lines 188-229)
that it invokes.  The embedding tracks which *data snapshot* each piece
of the manager's serving state derives from: snapshots are identified by
a `Nat` id, and each field holds the id of the snapshot it was built
from (`none` = not fitted or unset).  `matcherSnap` stands for the
matching engine's exclusion map, and the five data fields for
`_patients_df`, `_donors_df`, `_tx_df`, `_hb_df`, `_features_df` — the
tables `predict_for_patient`, `match_donors` and `get_daily_alerts` read
when serving.  The timing model's own components get their own state,
because `fit` mutates them in place at different points of its body.
-/

/-- Fit-relevant state of `TransfusionTimingModel` and its scaler: the
snapshot each fitted component's statistics derive from (`none` = the
component is not fitted, e.g. after `StandardScaler._reset`), and the
`is_fitted` flag (set only at line 229, the last line of `fit`). -/
structure ModelState where
  scalerSnap : Option Nat
  rfSnap : Option Nat
  gbSnap : Option Nat
  isFitted : Bool
  deriving DecidableEq, Repr

/-- The outcomes of a call to `TransfusionTimingModel.fit`
(lines 188-229), one per reachable raise point for malformed feature
data, in source order:

* `failValidation` — raise at the column selection
  `features_df[FEATURE_COLS]` (line 189, missing column) or at
  `train_test_split` (line 192, too few rows), before any mutation of
  the model;
* `failScalerFit` — raise inside `self.scaler.fit_transform(X_train)`
  (line 196): sklearn's `StandardScaler.fit` first calls `_reset()`,
  deleting the previously fitted statistics, and then validates its
  input, which rejects infinite values — so the raise leaves the scaler
  unfitted;
* `failRfFit` — `StandardScaler` accepts NaN but
  `RandomForestRegressor.fit` (line 199) does not: a feature column that
  is all NaN (its NaN median survives the `fillna` of line 189) refits
  the scaler to the new data and then raises in the forest fit, leaving
  a new scaler next to the old regressors;
* `fitOk` — every component refit from the new data and
  `self.is_fitted = True` (line 229).

A malformed-data raise in `gb_model.fit` (line 200) would require data
that already passed the identical input validation of the forest fit on
the same `X_train_scaled, y_train`, so it adds no further reachable
failure shape; `feature_importance` and `training_metrics`
(lines 206-224) are not tracked. -/
inductive FitOutcome where
  | failValidation
  | failScalerFit
  | failRfFit
  | fitOk
  deriving DecidableEq, Repr

/-- The in-place mutation `TransfusionTimingModel.fit` performs on model
state `m` when run on feature data of snapshot `snap`, per outcome (see
`FitOutcome`); returns the post-call model state and whether `fit`
returned normally. -/
def fitModel (m : ModelState) (snap : Nat) (outcome : FitOutcome) : ModelState × Bool :=
  match outcome with
  | .failValidation => (m, false)
  | .failScalerFit => ({ m with scalerSnap := none }, false)
  | .failRfFit => ({ m with scalerSnap := some snap }, false)
  | .fitOk =>
      ({ scalerSnap := some snap, rfSnap := some snap, gbSnap := some snap,
         isFitted := true }, true)

/-- The mutable fields of `ThalModelManager` (lines 33-45). -/
structure MgrState where
  patientsSnap : Option Nat
  donorsSnap : Option Nat
  txSnap : Option Nat
  hbSnap : Option Nat
  featuresSnap : Option Nat
  model : ModelState
  matcherSnap : Option Nat
  isReady : Bool
  deriving DecidableEq, Repr

/-- `train_on_synthetic` (lines 78-117) on a manager in state `s`, with
fresh data snapshot `snap`; `outcome` says where `self.model.fit`
(line 94) raises, if it does.  The source assigns `self._patients_df`,
`self._donors_df`, `self._tx_df`, `self._hb_df` (lines 85-88) and
`self._features_df` (line 91) *before* calling `fit`, and `fit` mutates
the model object in place (`fitModel`); a raise inside `fit` propagates
(there is no handler), so the matcher rebuild (line 97), the
alert-system rebuild, the save and `self._is_ready = True` (line 116) do
not run, but the five data fields keep their new values and the model
keeps whatever mutation `fit` performed before raising.  Returns the
post-call state and whether the call returned normally. -/
def train_on_synthetic (s : MgrState) (snap : Nat) (outcome : FitOutcome) : MgrState × Bool :=
  let s1 : MgrState :=
    { s with patientsSnap := some snap, donorsSnap := some snap,
             txSnap := some snap, hbSnap := some snap }
  let s2 : MgrState := { s1 with featuresSnap := some snap }
  let fitres := fitModel s2.model snap outcome
  let s3 : MgrState := { s2 with model := fitres.1 }
  if fitres.2 then
    ({ s3 with matcherSnap := some snap, isReady := true }, true)
  else
    (s3, false)

/-- A manager that has completed a first successful training or load of
snapshot `n` (every field derives from `n`, ready flag set). -/
def readyMgr (n : Nat) : MgrState :=
  ⟨some n, some n, some n, some n, some n, ⟨some n, some n, some n, true⟩, some n, true⟩




/-! ## Helper lemmas and claim theorems -/

lemma mem_donor_of_mem_scoreAndRank {pool : List Donor} {n : Nat} {x : ScoredDonor}
    (hx : x ∈ scoreAndRank pool n) : x.donor ∈ pool := by
  unfold scoreAndRank at hx
  have h1 := List.mem_of_mem_take hx
  rw [List.mem_insertionSort] at h1
  obtain ⟨d, hd, rfl⟩ := List.mem_map.mp h1
  exact hd

lemma not_excluded_of_mem_matchDonors {hist : List TxRow} {pid bt : String}
    {donors : List Donor} {n : Nat} {x : ScoredDonor}
    (hx : x ∈ matchDonors hist pid bt donors n) :
    x.donor.donorId ∉ get_excluded_donors hist pid := by
  simp only [matchDonors] at hx
  split at hx
  · simp at hx
  · have hd := mem_donor_of_mem_scoreAndRank hx
    have hmask := (List.mem_filter.mp hd).2
    simp only [eligibleMask, Bool.and_eq_true, Bool.not_eq_true'] at hmask
    have : x.donor.donorId ∉ get_excluded_donors hist pid := by
      simpa using hmask.1.1.2
    exact this

lemma mem_excluded_of_event {hist : List TxRow} {pid : String} {ev : TxRow}
    (hev : ev ∈ hist) (hpid : ev.patientId = pid) :
    ev.donorId ∈ get_excluded_donors hist pid :=
  List.mem_map.mpr ⟨ev, List.mem_filter.mpr ⟨hev, by simp [hpid]⟩, rfl⟩

lemma event_donor_not_in_match {hist : List TxRow} {pid bt : String}
    {donors : List Donor} {n : Nat} {ev : TxRow}
    (hev : ev ∈ hist) (hpid : ev.patientId = pid) :
    ev.donorId ∉ (matchDonors hist pid bt donors n).map (fun x => x.donor.donorId) := by
  intro hmem
  obtain ⟨x, hx, hid⟩ := List.mem_map.mp hmem
  exact (hid ▸ not_excluded_of_mem_matchDonors hx) (mem_excluded_of_event hev hpid)

/-- C1: for every patient `p`, no donor id that appears in a
transfusion-event row for `p` in the history snapshot the exclusion map
was built from is present in the eligible list `match` returns; and the
same holds after a new transfusion event is appended and the exclusion
index is rebuilt from the updated history. -/
theorem match_never_returns_transfused_donor
    (hist : List TxRow) (pid bt : String) (donors : List Donor) (top_n : Nat)
    (ev : TxRow) (hev : ev ∈ hist) (hpid : ev.patientId = pid) :
    ev.donorId ∉ (matchDonors hist pid bt donors top_n).map (fun x => x.donor.donorId) ∧
    ∀ newEv : TxRow,
      ev.donorId ∉
        (matchDonors (hist ++ [newEv]) pid bt donors top_n).map (fun x => x.donor.donorId) :=
  ⟨event_donor_not_in_match hev hpid,
   fun _ => event_donor_not_in_match (List.mem_append_left _ hev) hpid⟩

theorem match_never_returns_transfused_donor_witness :
    "D1" ∉ (matchDonors [⟨"P1", "D1"⟩] "P1" "A+"
        [⟨"D1", "A+", true, some 100, 10⟩, ⟨"D9", "O-", true, some 80, 3⟩] 5).map
        (fun x => x.donor.donorId) ∧
    "D1" ∉ (matchDonors ([⟨"P1", "D1"⟩] ++ [⟨"P1", "D7"⟩]) "P1" "A+"
        [⟨"D1", "A+", true, some 100, 10⟩, ⟨"D9", "O-", true, some 80, 3⟩] 5).map
        (fun x => x.donor.donorId) := by
  have h := match_never_returns_transfused_donor [⟨"P1", "D1"⟩] "P1" "A+"
    [⟨"D1", "A+", true, some 100, 10⟩, ⟨"D9", "O-", true, some 80, 3⟩] 5
    ⟨"P1", "D1"⟩ (by decide) rfl
  exact ⟨h.1, h.2 ⟨"P1", "D7"⟩⟩


/-- C2: over all 64 ordered pairs of the 8 blood types, both of the
program's compatibility encodings (the matching engine's recipient-keyed
table and the utility module's `blood_compatible`) agree with the
canonical transfusion matrix; in particular O- may donate to all 8
recipient types, AB+ may receive from all 8 donor types, and A+ may not
donate to B+. -/
theorem compatibility_matches_canonical_matrix :
    (∀ d r : BT, progCompatible d.str r.str = canonicalCompatible d r) ∧
    (∀ d r : BT, blood_compatible d.str r.str = canonicalCompatible d r) ∧
    (∀ r : BT, progCompatible "O-" r.str = true) ∧
    (∀ d : BT, progCompatible d.str "AB+" = true) ∧
    progCompatible "A+" "B+" = false :=
  ⟨by decide, by decide, by decide, by decide, by decide⟩

/-- C10: the matching engine's `BLOOD_TYPE_COMPATIBILITY` table and the
utility module's `blood_compatible` encode the same relation on all 64
ordered pairs of the 8 blood types. -/
theorem two_compatibility_encodings_agree :
    ∀ d r : BT, progCompatible d.str r.str = blood_compatible d.str r.str := by decide

/-- C3 (evaluation at the failing input): the 56-day-cooldown conjunct of
the eligibility mask is identically false — `isna | days >= 56` parses as
`(isna | days) >= 56` and a boolean never reaches 56 — so `match` returns
the empty list even for a compatible, available, never-transfused donor,
whether its last-donation date is 100 days old (`D1`) or null (`D2`);
the claim says both should be eligible. -/
theorem cooldown_conjunct_always_false :
    (∀ d : Donor, cooldown56Mask d = false) ∧
    matchDonors [] "P1" "A+"
      [⟨"D1", "A+", true, some 100, 10⟩, ⟨"D2", "A+", true, none, 10⟩] 5 = [] := by
  constructor
  · intro d
    simp only [cooldown56Mask]
    split <;> decide
  · rfl


lemma pyRound_le (q : ℚ) : (pyRound q : ℚ) ≤ q + 1 / 2 := by
  have hf : (⌊q⌋ : ℚ) ≤ q := Int.floor_le q
  have hf' : q < (⌊q⌋ : ℚ) + 1 := Int.lt_floor_add_one q
  simp only [pyRound]
  split
  · linarith
  · split
    · push_cast
      linarith
    · split <;> push_cast <;> linarith

lemma le_pyRound (q : ℚ) : q - 1 / 2 ≤ (pyRound q : ℚ) := by
  have hf : (⌊q⌋ : ℚ) ≤ q := Int.floor_le q
  have hf' : q < (⌊q⌋ : ℚ) + 1 := Int.lt_floor_add_one q
  simp only [pyRound]
  split
  · linarith
  · split
    · push_cast
      linarith
    · split <;> push_cast <;> linarith

/-- C4: whatever real values the two regressors and the tree-disagreement
standard deviation take (the latter is nonnegative, as a standard
deviation), the returned `predicted_days` is at least 5 and the
confidence range satisfies `5 ≤ low` and `low ≤ predicted_days ≤ high`. -/
theorem predicted_days_and_confidence_bounds
    (rf_pred gb_pred std_dev : ℚ) (hstd : 0 ≤ std_dev) :
    5 ≤ predicted_days rf_pred gb_pred ∧
    5 ≤ confidence_low (predicted_days rf_pred gb_pred) std_dev ∧
    confidence_low (predicted_days rf_pred gb_pred) std_dev ≤ predicted_days rf_pred gb_pred ∧
    predicted_days rf_pred gb_pred ≤ confidence_high (predicted_days rf_pred gb_pred) std_dev := by
  set p := predicted_days rf_pred gb_pred with hp
  have hp5 : 5 ≤ p := le_max_left _ _
  refine ⟨hp5, le_max_left _ _, ?_, ?_⟩
  · have hb : (pyRound ((p : ℚ) - std_dev) : ℚ) ≤ (p : ℚ) + 1 / 2 := by
      have := pyRound_le ((p : ℚ) - std_dev)
      linarith
    have : pyRound ((p : ℚ) - std_dev) < p + 1 := by
      have : (pyRound ((p : ℚ) - std_dev) : ℚ) < (p : ℚ) + 1 := by linarith
      exact_mod_cast this
    exact max_le hp5 (by omega)
  · have hb : (p : ℚ) - 1 / 2 ≤ (pyRound ((p : ℚ) + std_dev) : ℚ) := by
      have := le_pyRound ((p : ℚ) + std_dev)
      linarith
    have : (p : ℚ) < (pyRound ((p : ℚ) + std_dev) : ℚ) + 1 := by linarith
    have : p < pyRound ((p : ℚ) + std_dev) + 1 := by exact_mod_cast this
    simp only [confidence_high]
    omega

theorem predicted_days_and_confidence_bounds_witness :
    (0 : ℚ) ≤ 2 ∧
    (5 ≤ predicted_days 21 21 ∧
      5 ≤ confidence_low (predicted_days 21 21) 2 ∧
      confidence_low (predicted_days 21 21) 2 ≤ predicted_days 21 21 ∧
      predicted_days 21 21 ≤ confidence_high (predicted_days 21 21) 2) :=
  ⟨by norm_num, predicted_days_and_confidence_bounds 21 21 2 (by norm_num)⟩

/-- C5: the urgency tier is a function of `predicted_days` alone, with
`predicted_days ≤ 7` mapped to URGENT, `8 ≤ predicted_days ≤ 14` to SOON
and `15 ≤ predicted_days` to STABLE. -/
theorem urgency_tier_thresholds (pdays : Int) :
    (pdays ≤ 7 → urgencyOf pdays = .URGENT) ∧
    (8 ≤ pdays ∧ pdays ≤ 14 → urgencyOf pdays = .SOON) ∧
    (15 ≤ pdays → urgencyOf pdays = .STABLE) := by
  refine ⟨fun h => ?_, fun h => ?_, fun h => ?_⟩
  · rw [urgencyOf, if_pos h]
  · rw [urgencyOf, if_neg (by omega), if_pos h.2]
  · rw [urgencyOf, if_neg (by omega), if_neg (by omega)]

theorem urgency_tier_thresholds_witness :
    urgencyOf 7 = .URGENT ∧ urgencyOf 8 = .SOON ∧
    urgencyOf 14 = .SOON ∧ urgencyOf 15 = .STABLE :=
  ⟨(urgency_tier_thresholds 7).1 (by norm_num),
   (urgency_tier_thresholds 8).2.1 (by norm_num),
   (urgency_tier_thresholds 14).2.1 (by norm_num),
   (urgency_tier_thresholds 15).2.2 (by norm_num)⟩


lemma rowAt_eq_none {pt : PatientInfo} {evts : List TxEvent} {hb : List HbReading} {i : Nat}
    (h : gapAt evts i < 5 ∨ 120 < gapAt evts i) : rowAt pt evts hb i = none := by
  rw [rowAt, if_pos h]

lemma rowAt_daysToNext {pt : PatientInfo} {evts : List TxEvent} {hb : List HbReading} {i : Nat}
    {row : FeatureRow} (h : rowAt pt evts hb i = some row) :
    row.daysToNextTx = gapAt evts i := by
  rw [rowAt] at h
  split at h
  · cases h
  · cases h
    rfl

lemma map_daysToNext_filterMap (pt : PatientInfo) (evts : List TxEvent) (hb : List HbReading) :
    ∀ l : List Nat,
      (l.filterMap (rowAt pt evts hb)).map (fun r => r.daysToNextTx)
        = (l.map (gapAt evts)).filter (fun g => decide (5 ≤ g) && decide (g ≤ 120)) := by
  intro l
  induction l with
  | nil => rfl
  | cons i t ih =>
    by_cases h : gapAt evts i < 5 ∨ 120 < gapAt evts i
    · have hfilt : (decide (5 ≤ gapAt evts i) && decide (gapAt evts i ≤ 120)) = false := by
        rcases h with h | h <;> simp <;> omega
      simp [List.filterMap_cons, rowAt_eq_none h, List.filter_cons, hfilt, ih]
    · have hfilt : (decide (5 ≤ gapAt evts i) && decide (gapAt evts i ≤ 120)) = true := by
        simp only [not_or, not_lt] at h
        simp [h.1, h.2]
      cases hr : rowAt pt evts hb i with
      | none =>
        rw [rowAt, if_neg h] at hr
        cases hr
      | some row =>
        simp [List.filterMap_cons, hr, List.filter_cons, hfilt, rowAt_daysToNext hr, ih]

/-- C6: feature-row generation keeps exactly the consecutive pairs of the
date-sorted history whose day gap lies in `[5, 120]` — the labels of the
produced rows are exactly the gaps passing that filter, in order — and a
patient with three events producing a 3-day and a 40-day gap yields
exactly one feature row. -/
theorem feature_rows_gap_filter :
    (∀ (pt : PatientInfo) (evts : List TxEvent) (hb : List HbReading),
      (build_features_one pt evts hb).map (fun r => r.daysToNextTx)
        = (consecGaps (sortByDate evts)).filter (fun g => decide (5 ≤ g) && decide (g ≤ 120))) ∧
    (build_features_one ⟨20, 50, false, true, 8⟩
      [⟨0, 1, 7, 10, 2, false⟩, ⟨3, 1, 7, 10, 2, false⟩, ⟨43, 2, 7, 10, 2, false⟩]
      []).length = 1 := by
  constructor
  · intro pt evts hb
    rw [build_features_one, consecGaps]
    by_cases hlen : (sortByDate evts).length < 2
    · rw [if_pos hlen]
      have h0 : (sortByDate evts).length - 1 = 0 := by omega
      rw [h0]
      rfl
    · rw [if_neg hlen]
      exact map_daysToNext_filterMap pt (sortByDate evts) hb _
  · rfl


/-- C7: every candidate in the ranked output carries the score
`0.4 * (total_donations / max_total_donations_in_pool) + 0.3 * (clip(days_since_last_donation, 56, 365) / 365) + 0.3`
when the pool's maximum total-donation count is positive and a flat `0.5`
when it is zero; the output is sorted by descending score and has at most
`top_n` entries. -/
theorem donor_scoring_formula (eligible : List Donor) (top_n : Nat) :
    (∀ x ∈ scoreAndRank eligible top_n,
      x.score =
        if 0 < max_donations eligible then
          2 / 5 * ((x.donor.totalDonations : ℚ) / (max_donations eligible : ℚ))
            + 3 / 10 * (((min (max (days_since_last_donation x.donor) 56) 365 : Int) : ℚ) / 365)
            + 3 / 10
        else 1 / 2) ∧
    (scoreAndRank eligible top_n).Sorted scoreDesc ∧
    (scoreAndRank eligible top_n).length ≤ top_n := by
  refine ⟨?_, ?_, ?_⟩
  · intro x hx
    unfold scoreAndRank at hx
    have h1 := List.mem_of_mem_take hx
    rw [List.mem_insertionSort] at h1
    obtain ⟨d, hd, rfl⟩ := List.mem_map.mp h1
    show donorScore (max_donations eligible) d = _
    rw [donorScore]
    split
    · simp
    · rfl
  · exact List.Pairwise.sublist (List.take_sublist _ _) (List.sorted_insertionSort _ _)
  · exact List.length_take_le _ _

theorem donor_scoring_formula_witness :
    (scoreAndRank [⟨"D1", "A+", true, some 100, 10⟩, ⟨"D2", "O-", true, none, 0⟩] 5).Sorted
        scoreDesc ∧
    (scoreAndRank [⟨"D1", "A+", true, some 100, 10⟩, ⟨"D2", "O-", true, none, 0⟩] 5).length ≤ 5 :=
  ⟨(donor_scoring_formula [⟨"D1", "A+", true, some 100, 10⟩, ⟨"D2", "O-", true, none, 0⟩] 5).2.1,
   (donor_scoring_formula [⟨"D1", "A+", true, some 100, 10⟩, ⟨"D2", "O-", true, none, 0⟩] 5).2.2⟩

/-- C8: the batch alert output is sorted by urgency tier (URGENT before
SOON before STABLE) and by ascending predicted days within a tier, it is
a permutation of the per-patient records, and the concrete batch with
predictions 20 (STABLE), 5 (URGENT), 10 (SOON) days comes out in the
order 5, 10, 20. -/
theorem batch_alert_ordering :
    (∀ preds : List (String × Int), (run_daily_batch preds).Sorted alertLE) ∧
    (∀ preds : List (String × Int), (run_daily_batch preds).Perm (mkAlerts preds)) ∧
    (run_daily_batch [("PT1", 20), ("PT2", 5), ("PT3", 10)]).map (fun a => a.predictedDays)
      = [5, 10, 20] :=
  ⟨fun preds => List.sorted_insertionSort alertLE (mkAlerts preds),
   fun preds => List.perm_insertionSort alertLE (mkAlerts preds),
   by rfl⟩

/-- C9 (counterexample): a manager serving the artifact of snapshot `1`
undergoes a training attempt on snapshot `2` whose fit raises.  With the
all-NaN-column failure (`failRfFit`) the transfusion-history table that
predictions read derives from snapshot `2` and the scaler was refit to
snapshot `2` next to the old regressors; with the infinite-value failure
(`failScalerFit`) the prior scaler is destroyed outright.  In both runs
the serving state was not left unchanged, refuting the claim at these
inputs. -/
theorem training_failure_counterexample :
    (train_on_synthetic (readyMgr 1) 2 .failRfFit).1.txSnap = some 2 ∧
    (readyMgr 1).txSnap = some 1 ∧
    (train_on_synthetic (readyMgr 1) 2 .failRfFit).1.model.scalerSnap = some 2 ∧
    (readyMgr 1).model.scalerSnap = some 1 ∧
    (train_on_synthetic (readyMgr 1) 2 .failRfFit).1 ≠ readyMgr 1 ∧
    (train_on_synthetic (readyMgr 1) 2 .failRfFit).2 = false ∧
    (train_on_synthetic (readyMgr 1) 2 .failScalerFit).1.model.scalerSnap = none ∧
    (train_on_synthetic (readyMgr 1) 2 .failScalerFit).2 = false := by decide

/-- C9 (amended): when a training attempt fails in `model.fit`, the
exclusion map, the ready flag, the model's fitted flag and the two
regressors are left unchanged, but the five data-snapshot tables the
manager serves predictions from have already been replaced by the new
snapshot; the prior scaler survives only a failure that precedes scaler
refitting (column/split validation) — an infinite-value failure inside
the scaler's fit leaves the scaler unfitted, and a NaN failure in the
forest fit leaves the scaler refit to the new snapshot beside the old
regressors.  The prior artifact is not preserved intact, and replacement
is by in-place mutation rather than an atomic swap. -/
theorem training_failure_partial_overwrite (s : MgrState) (snap : Nat)
    (outcome : FitOutcome) (h : outcome ≠ FitOutcome.fitOk) :
    (train_on_synthetic s snap outcome).2 = false ∧
    (train_on_synthetic s snap outcome).1.matcherSnap = s.matcherSnap ∧
    (train_on_synthetic s snap outcome).1.isReady = s.isReady ∧
    (train_on_synthetic s snap outcome).1.model.isFitted = s.model.isFitted ∧
    (train_on_synthetic s snap outcome).1.model.rfSnap = s.model.rfSnap ∧
    (train_on_synthetic s snap outcome).1.model.gbSnap = s.model.gbSnap ∧
    (train_on_synthetic s snap outcome).1.patientsSnap = some snap ∧
    (train_on_synthetic s snap outcome).1.donorsSnap = some snap ∧
    (train_on_synthetic s snap outcome).1.txSnap = some snap ∧
    (train_on_synthetic s snap outcome).1.hbSnap = some snap ∧
    (train_on_synthetic s snap outcome).1.featuresSnap = some snap ∧
    (train_on_synthetic s snap outcome).1.model.scalerSnap =
      (match outcome with
        | .failValidation => s.model.scalerSnap
        | .failScalerFit => none
        | _ => some snap) := by
  cases outcome
  case fitOk => exact absurd rfl h
  all_goals exact ⟨rfl, rfl, rfl, rfl, rfl, rfl, rfl, rfl, rfl, rfl, rfl, rfl⟩

theorem training_failure_partial_overwrite_witness :
    (train_on_synthetic (readyMgr 3) 4 .failValidation).2 = false ∧
    (train_on_synthetic (readyMgr 3) 4 .failValidation).1.matcherSnap = some 3 ∧
    (train_on_synthetic (readyMgr 3) 4 .failValidation).1.isReady = true ∧
    (train_on_synthetic (readyMgr 3) 4 .failValidation).1.model.isFitted = true ∧
    (train_on_synthetic (readyMgr 3) 4 .failValidation).1.model.rfSnap = some 3 ∧
    (train_on_synthetic (readyMgr 3) 4 .failValidation).1.model.gbSnap = some 3 ∧
    (train_on_synthetic (readyMgr 3) 4 .failValidation).1.patientsSnap = some 4 ∧
    (train_on_synthetic (readyMgr 3) 4 .failValidation).1.donorsSnap = some 4 ∧
    (train_on_synthetic (readyMgr 3) 4 .failValidation).1.txSnap = some 4 ∧
    (train_on_synthetic (readyMgr 3) 4 .failValidation).1.hbSnap = some 4 ∧
    (train_on_synthetic (readyMgr 3) 4 .failValidation).1.featuresSnap = some 4 ∧
    (train_on_synthetic (readyMgr 3) 4 .failValidation).1.model.scalerSnap = some 3 :=
  training_failure_partial_overwrite (readyMgr 3) 4 FitOutcome.failValidation (by decide)

end LifeForge
